import Mathlib

/-!
# Device trust and session-issuance gateway: a shallow embedding

This file embeds, in Lean, the core of the `uneseule_server` repository's
device gateway: HMAC-SHA256 request-signature verification
(`app/api/v1/device/auth.py`), the voice-token issuance pipeline with
subscription-tiered daily rate limiting (`app/services/voice_token_service.py`),
and device registration / pairing (`app/services/device_service.py`).

Byte strings are modelled as `List Nat` (each entry a byte value); Python's
`str` values that enter the HMAC are represented by their UTF-8 byte
sequences, so string concatenation in the source becomes list append here.
Machine words in SHA-256 are `Nat` reduced modulo `2^32`.
-/

namespace Uneseule

/-! ## SHA-256 over byte lists (as used via Python's `hashlib.sha256`) -/

/-- Reduce to a 32-bit word. -/
def w32 (n : Nat) : Nat := n % 4294967296

/-- Right-rotate a 32-bit word by `n` bits. -/
def rotr (x n : Nat) : Nat := w32 (Nat.lor (x >>> n) (x <<< (32 - n)))

/-- Bitwise complement inside 32 bits. -/
def not32 (x : Nat) : Nat := Nat.xor x 4294967295

/-- SHA-256 choice function. -/
def sha2Ch (x y z : Nat) : Nat := Nat.xor (Nat.land x y) (Nat.land (not32 x) z)

/-- SHA-256 majority function. -/
def sha2Maj (x y z : Nat) : Nat :=
  Nat.xor (Nat.xor (Nat.land x y) (Nat.land x z)) (Nat.land y z)

/-- SHA-256 big sigma 0. -/
def bsig0 (x : Nat) : Nat := Nat.xor (Nat.xor (rotr x 2) (rotr x 13)) (rotr x 22)

/-- SHA-256 big sigma 1. -/
def bsig1 (x : Nat) : Nat := Nat.xor (Nat.xor (rotr x 6) (rotr x 11)) (rotr x 25)

/-- SHA-256 small sigma 0. -/
def ssig0 (x : Nat) : Nat := Nat.xor (Nat.xor (rotr x 7) (rotr x 18)) (x >>> 3)

/-- SHA-256 small sigma 1. -/
def ssig1 (x : Nat) : Nat := Nat.xor (Nat.xor (rotr x 17) (rotr x 19)) (x >>> 10)

/-- The 64 SHA-256 round constants. -/
def sha256K : List Nat :=
  [1116352408, 1899447441, 3049323471, 3921009573, 961987163,
   1508970993, 2453635748, 2870763221, 3624381080, 310598401,
   607225278, 1426881987, 1925078388, 2162078206, 2614888103,
   3248222580, 3835390401, 4022224774, 264347078, 604807628,
   770255983, 1249150122, 1555081692, 1996064986, 2554220882,
   2821834349, 2952996808, 3210313671, 3336571891, 3584528711,
   113926993, 338241895, 666307205, 773529912, 1294757372,
   1396182291, 1695183700, 1986661051, 2177026350, 2456956037,
   2730485921, 2820302411, 3259730800, 3345764771, 3516065817,
   3600352804, 4094571909, 275423344, 430227734, 506948616,
   659060556, 883997877, 958139571, 1322822218, 1537002063,
   1747873779, 1955562222, 2024104815, 2227730452, 2361852424,
   2428436474, 2756734187, 3204031479, 3329325298]

/-- Working state of the SHA-256 compression function: eight 32-bit words. -/
structure Sha256State where
  a : Nat
  b : Nat
  c : Nat
  d : Nat
  e : Nat
  f : Nat
  g : Nat
  h : Nat

/-- Initial SHA-256 hash value. -/
def sha256Init : Sha256State :=
  ⟨1779033703, 3144134277, 1013904242, 2773480762,
   1359893119, 2600822924, 528734635, 1541459225⟩

/-- One SHA-256 round with round constant `k` and schedule word `w`. -/
def sha256Round (st : Sha256State) (k w : Nat) : Sha256State :=
  let t1 := w32 (st.h + bsig1 st.e + sha2Ch st.e st.f st.g + k + w)
  let t2 := w32 (bsig0 st.a + sha2Maj st.a st.b st.c)
  ⟨w32 (t1 + t2), st.a, st.b, st.c, w32 (st.d + t1), st.e, st.f, st.g⟩

/-- Extend a message schedule by one word. -/
def scheduleStep (ws : List Nat) : List Nat :=
  let n := ws.length
  ws ++ [w32 (ssig1 (ws.getD (n - 2) 0) + ws.getD (n - 7) 0 +
              ssig0 (ws.getD (n - 15) 0) + ws.getD (n - 16) 0)]

/-- Expand the 16 block words into the 64 schedule words. -/
def sha256Schedule (ws : List Nat) : List Nat := scheduleStep^[48] ws

/-- Compress one 16-word block into the running state. -/
def sha256Compress (st : Sha256State) (block : List Nat) : Sha256State :=
  let ws := sha256Schedule block
  let t := (List.zip sha256K ws).foldl (fun s kw => sha256Round s kw.1 kw.2) st
  ⟨w32 (st.a + t.a), w32 (st.b + t.b), w32 (st.c + t.c), w32 (st.d + t.d),
   w32 (st.e + t.e), w32 (st.f + t.f), w32 (st.g + t.g), w32 (st.h + t.h)⟩

/-- Split a list into consecutive pieces of `n` elements (fuelled so the
recursion is structural; the fuel `l.length + 1` always suffices). -/
def chunkAux (n : Nat) : Nat → List α → List (List α)
  | 0, _ => []
  | _ + 1, [] => []
  | fuel + 1, x :: xs => (x :: xs).take n :: chunkAux n fuel ((x :: xs).drop n)

/-- Split a list into consecutive pieces of `n` elements. -/
def chunk (n : Nat) (l : List α) : List (List α) := chunkAux n (l.length + 1) l

/-- A 32-bit word as four big-endian bytes. -/
def wordBE4 (w : Nat) : List Nat :=
  [(w >>> 24) % 256, (w >>> 16) % 256, (w >>> 8) % 256, w % 256]

/-- A 64-bit length field as eight big-endian bytes. -/
def lenBE8 (n : Nat) : List Nat :=
  [(n >>> 56) % 256, (n >>> 48) % 256, (n >>> 40) % 256, (n >>> 32) % 256,
   (n >>> 24) % 256, (n >>> 16) % 256, (n >>> 8) % 256, n % 256]

/-- Four big-endian bytes as a 32-bit word. -/
def wordOfBytes (l : List Nat) : Nat := l.foldl (fun acc x => acc * 256 + x) 0

/-- SHA-256 padding: `0x80`, zeros to 56 mod 64, then the bit length. -/
def sha256Pad (msg : List Nat) : List Nat :=
  let len := msg.length
  msg ++ [0x80] ++ List.replicate ((64 - (len + 9) % 64) % 64) 0 ++ lenBE8 (8 * len)

/-- The eight state words as the 32 digest bytes. -/
def sha256StateBytes (st : Sha256State) : List Nat :=
  wordBE4 st.a ++ wordBE4 st.b ++ wordBE4 st.c ++ wordBE4 st.d ++
  wordBE4 st.e ++ wordBE4 st.f ++ wordBE4 st.g ++ wordBE4 st.h

/-- SHA-256 digest (32 bytes) of a byte list. -/
def sha256 (msg : List Nat) : List Nat :=
  let blocks := (chunk 64 (sha256Pad msg)).map (fun b => (chunk 4 b).map wordOfBytes)
  sha256StateBytes (blocks.foldl sha256Compress sha256Init)

/-! ## HMAC-SHA256 and lowercase hex rendering (Python `hmac` / `.hexdigest()`) -/

/-- The ASCII code of the lowercase hex digit for `n < 16`. -/
def hexDigitChar (n : Nat) : Nat := if n < 10 then 48 + n else 87 + n

/-- Lowercase hex rendering of a byte list, as ASCII codes. -/
def bytesToHex (l : List Nat) : List Nat :=
  l.flatMap (fun b => [hexDigitChar (b / 16), hexDigitChar (b % 16)])

/-- HMAC-SHA256 (RFC 2104) of `msg` keyed by `key`, as 32 raw digest bytes. -/
def hmacSha256 (key msg : List Nat) : List Nat :=
  let k0 := if 64 < key.length then sha256 key else key
  let kp := k0 ++ List.replicate (64 - k0.length) 0
  let ipadded := kp.map (fun b => Nat.xor b 0x36)
  let opadded := kp.map (fun b => Nat.xor b 0x5c)
  sha256 (opadded ++ sha256 (ipadded ++ msg))

/-- Python's `hmac.new(secret, message, hashlib.sha256).hexdigest()`: the lowercase
hex digest, as ASCII codes. -/
def hmacSha256Hex (key msg : List Nat) : List Nat := bytesToHex (hmacSha256 key msg)

/-! ## Python `int(...)` parsing of a decimal string (byte-level, ASCII) -/

/-- Python whitespace stripped by `int(...)` (ASCII range). -/
def isPySpace (c : Nat) : Bool :=
  c == 32 || c == 9 || c == 10 || c == 13 || c == 11 || c == 12

/-- Strip leading and trailing whitespace. -/
def pyStrip (l : List Nat) : List Nat :=
  ((l.dropWhile isPySpace).reverse.dropWhile isPySpace).reverse

/-- The value of an ASCII decimal digit, if it is one. -/
def pyDigit (c : Nat) : Option Nat :=
  if 48 ≤ c ∧ c ≤ 57 then some (c - 48) else none

/-- Digits after the first: each is a digit, or a single underscore followed
by a digit (Python allows `1_000`). -/
def pyDigitsAux : List Nat → Nat → Option Nat
  | [], acc => some acc
  | c :: rest, acc =>
    if c == 95 then
      match rest with
      | [] => none
      | d :: rest2 =>
        match pyDigit d with
        | some v => pyDigitsAux rest2 (acc * 10 + v)
        | none => none
    else
      match pyDigit c with
      | some v => pyDigitsAux rest (acc * 10 + v)
      | none => none

/-- A nonempty digit run (with Python's underscore rule) as a number. -/
def pyDigits : List Nat → Option Nat
  | [] => none
  | c :: rest =>
    match pyDigit c with
    | some v => pyDigitsAux rest v
    | none => none

/-- Python `int(s)` on the UTF-8 bytes of a decimal string: optional
whitespace, optional sign, digits; `none` models the `ValueError`.
(Python also accepts non-ASCII Unicode digits; protocol timestamps are
ASCII, which is the range modelled here.) -/
def pyIntOfBytes (l : List Nat) : Option Int :=
  match pyStrip l with
  | 43 :: rest => (pyDigits rest).map (fun n => (n : Int))
  | 45 :: rest => (pyDigits rest).map (fun n => -(n : Int))
  | rest => (pyDigits rest).map (fun n => (n : Int))

/-! ## `app/api/v1/device/auth.py`: signature verification -/

/-- Embeds `verify_device_signature(serial, signature, timestamp, body,
secret)`. Strings are their UTF-8 bytes, so the source's
`f"{serial}{timestamp}{body.decode()}".encode()` is list append; `now`
stands for `int(time.time())`. Returns `false` on an unparseable timestamp
(`ValueError`), on `abs(now - timestamp) > 300`, and on a digest mismatch;
`hmac.compare_digest` is equality (its constant-time execution has no
functional content). -/
def verify_device_signature (serial signature timestamp body secret : List Nat)
    (now : Int) : Bool :=
  match pyIntOfBytes timestamp with
  | none => false
  | some t =>
    if 300 < (now - t).natAbs then false
    else signature = hmacSha256Hex secret (serial ++ timestamp ++ body)

/-- An HTTP error response as raised by `HTTPException(status_code, detail)`. -/
structure HttpResponse where
  status : Nat
  detail : String
deriving DecidableEq

/-- Embeds the `verify_device` FastAPI dependency. The source's
`get_device_secret` is an acknowledged placeholder ("should query database"),
so the device directory is a parameter `directory` mapping a serial number to
the stored secret (`none` = unknown). Python's `if not secret:` treats both
`None` and the empty string as missing. The request body is the source's
placeholder `b""`. The function's result is the `HTTPException` it raises
(on full success the source raises 501, not yet implemented). -/
def verify_device (directory : List Nat → Option (List Nat))
    (serial signature timestamp : List Nat) (now : Int) : HttpResponse :=
  match directory serial with
  | none => ⟨401, "Invalid device serial number"⟩
  | some secret =>
    if secret.isEmpty then ⟨401, "Invalid device serial number"⟩
    else if verify_device_signature serial signature timestamp [] secret now then
      ⟨501, "Device authentication not fully implemented"⟩
    else ⟨401, "Invalid device signature"⟩

/-- A two-device directory used to exercise `verify_device` concretely:
serial `[65]` is registered with secret `[75]`, all others are unknown. -/
def dir0 : List Nat → Option (List Nat) :=
  fun s => if s = [65] then some [75] else none

/-! ## Data model (`app/models/*.py`), projected to the fields the gateway reads -/

/-- From `app/models/child.py`: the projection the voice-token service reads.
`personality_traits` models the `"traits"` entry of the JSONB column
(`none` = column NULL or key absent, which the source maps to `[]` via
`child.personality_traits or {}` and `.get("traits", [])`). Ids are `Nat`
(the `str(...)` rendering of UUIDs carries no logical content). -/
structure ChildRec where
  id : Nat
  user_id : Nat
  name : String
  age : Nat
  is_active : Bool
  personality_traits : Option (List String)
deriving DecidableEq

/-- From `app/models/subscription.py`: the fields the gateway reads. -/
structure SubscriptionRec where
  user_id : Nat
  plan_type : String
  status : String
  expires_at : Option Int
deriving DecidableEq

/-- From `app/models/device.py`: the fields the gateway reads and writes.
Timestamps are integers; `none` models SQL NULL. -/
structure DeviceRec where
  id : Nat
  serial_number : String
  device_secret : String
  device_type : String
  firmware_version : String
  is_active : Bool
  connection_status : String
  last_seen : Option Int
  child_id : Option Nat
  paired_at : Option Int
deriving DecidableEq

/-- The property `Subscription.is_expired`: false when `expires_at` is NULL (lifetime),
else `datetime.now(timezone.utc) > expires_at`. -/
def subscription_is_expired (s : SubscriptionRec) (now : Int) : Bool :=
  match s.expires_at with
  | none => false
  | some e => e < now

/-- Embeds `VoiceTokenService._is_subscription_active`:
`status == "active" and not is_expired`. -/
def is_subscription_active (s : SubscriptionRec) (now : Int) : Bool :=
  s.status == "active" && !(subscription_is_expired s now)

/-! ## `app/services/voice_token_service.py` -/

/-- The `RATE_LIMITS` dict: free 50, basic 200, premium −1 (unlimited). -/
def RATE_LIMITS (plan : String) : Option Int :=
  if plan = "free" then some 50
  else if plan = "basic" then some 200
  else if plan = "premium" then some (-1)
  else none

/-- Embeds `VoiceTokenService._get_daily_limit`: `RATE_LIMITS.get(plan_type, 50)`. -/
def get_daily_limit (s : SubscriptionRec) : Int :=
  (RATE_LIMITS s.plan_type).getD 50

/-- Embeds `VoiceTokenService._check_rate_limit`: `counter` is the value the device's
daily key holds in Redis (`none` = key absent). An unlimited (−1) plan returns
true before the key is read; otherwise absent key → true, else
`int(current) < daily_limit`. -/
def check_rate_limit (counter : Option Nat) (s : SubscriptionRec) : Bool :=
  let daily_limit := get_daily_limit s
  if daily_limit = -1 then true
  else
    match counter with
    | none => true
    | some current => (current : Int) < daily_limit

/-- The `LiveKitTokenResponse` dataclass from `app/integrations/livekit.py`. -/
structure LiveKitTokenResponse where
  token : String
  livekit_url : String
  room_name : String
deriving DecidableEq

/-- The `ChildContext` schema from `app/schemas/device.py`. -/
structure ChildContext where
  child_id : Nat
  child_name : String
  child_age : Nat
  personality_traits : List String
deriving DecidableEq

/-- The `TokenResult` dataclass, with its field defaults. -/
structure TokenResult where
  success : Bool
  token : Option String := none
  livekit_url : Option String := none
  room_name : Option String := none
  child_context : Option ChildContext := none
  error_code : Option String := none
  error_message : Option String := none
deriving DecidableEq

/-- The world `VoiceTokenService.generate_token` runs in:
* `device` — the authenticated device row;
* `children` — `device.child` relationship resolution by child id;
* `subscriptions` — the subscription row keyed by `user_id`
  (`_get_subscription`'s `scalar_one_or_none`);
* `redis` — `none` when the service was built without Redis, else
  `some counter` where `counter` is the device's daily-key value;
* `livekit` — the outcome of `get_livekit_client().create_token(...)`:
  `.ok` with the provider's response, `.error` when it raises
  `LiveKitTokenError` (an uncaught `LiveKitConfigError` would crash the
  request and is outside this function's result type);
* `now` — the wall clock read by `is_expired` and `update_last_seen`. -/
structure VoiceEnv where
  device : DeviceRec
  children : Nat → Option ChildRec
  subscriptions : Nat → Option SubscriptionRec
  redis : Option (Option Nat)
  livekit : Except Unit LiveKitTokenResponse
  now : Int

/-- Embeds `VoiceTokenService.generate_token`. Returns the `TokenResult`
together with the world after the call: `DeviceRepository.update_last_seen`
sets `last_seen = now` and `connection_status = "online"`, and
`_increment_rate_limit` bumps the daily counter (both only on the success
path, in source order). -/
def generate_token (env : VoiceEnv) : TokenResult × VoiceEnv :=
  match env.device.child_id with
  | none =>
    ({ success := false, error_code := some "DEVICE_NOT_PAIRED",
       error_message := some "Device is not paired with a child" }, env)
  | some cid =>
    match env.children cid with
    | none =>
      ({ success := false, error_code := some "CHILD_NOT_FOUND",
         error_message := some "Paired child not found or inactive" }, env)
    | some child =>
      if !child.is_active then
        ({ success := false, error_code := some "CHILD_NOT_FOUND",
           error_message := some "Paired child not found or inactive" }, env)
      else
        match env.subscriptions child.user_id with
        | none =>
          ({ success := false, error_code := some "SUBSCRIPTION_NOT_FOUND",
             error_message := some "Parent subscription not found" }, env)
        | some sub =>
          if !is_subscription_active sub env.now then
            ({ success := false, error_code := some "SUBSCRIPTION_INACTIVE",
               error_message := some "Parent subscription is not active" }, env)
          else
            let is_allowed :=
              match env.redis with
              | none => true
              | some counter => check_rate_limit counter sub
            if !is_allowed then
              ({ success := false, error_code := some "RATE_LIMIT_EXCEEDED",
                 error_message := some "Daily API limit exceeded" }, env)
            else
              let child_context : ChildContext :=
                ⟨child.id, child.name, child.age, child.personality_traits.getD []⟩
              match env.livekit with
              | .error _ =>
                ({ success := false, error_code := some "LIVEKIT_ERROR",
                   error_message := some "Failed to generate voice session" }, env)
              | .ok tr =>
                let device' := { env.device with
                  last_seen := some env.now, connection_status := "online" }
                let redis' :=
                  match env.redis with
                  | none => none
                  | some counter => some (some (counter.getD 0 + 1))
                ({ success := true, token := some tr.token,
                   livekit_url := some tr.livekit_url,
                   room_name := some tr.room_name,
                   child_context := some child_context },
                 { env with device := device', redis := redis' })

/-- The paired child as the spec's pipeline reads it (step 3 of §4.6). -/
def spec_child (env : VoiceEnv) : Option ChildRec :=
  env.device.child_id.bind env.children

/-- The paired child's owner subscription (step 4 of §4.6). -/
def spec_subscription (env : VoiceEnv) : Option SubscriptionRec :=
  (spec_child env).bind (fun c => env.subscriptions c.user_id)

/-- Modelled from the spec (§4.6 / claim C2): the first failing check of the
ordered pipeline, with its error code and message, or `none` when every check
passes. Written from the claim's enumeration, to be compared with
`generate_token`. -/
def first_failing_check (env : VoiceEnv) : Option (String × String) :=
  if env.device.child_id.isNone then
    some ("DEVICE_NOT_PAIRED", "Device is not paired with a child")
  else if !(((spec_child env).map ChildRec.is_active).getD false) then
    some ("CHILD_NOT_FOUND", "Paired child not found or inactive")
  else if (spec_subscription env).isNone then
    some ("SUBSCRIPTION_NOT_FOUND", "Parent subscription not found")
  else if !(((spec_subscription env).map
      (fun s => is_subscription_active s env.now)).getD false) then
    some ("SUBSCRIPTION_INACTIVE", "Parent subscription is not active")
  else if !(match env.redis, spec_subscription env with
      | some counter, some s => check_rate_limit counter s
      | _, _ => true) then
    some ("RATE_LIMIT_EXCEEDED", "Daily API limit exceeded")
  else
    match env.livekit with
    | .error _ => some ("LIVEKIT_ERROR", "Failed to generate voice session")
    | .ok _ => none

/-- Modelled from the spec (§4.6 / claim C2): short-circuit on the first
failing check with its error and no state change; only on success mark the
device seen, increment the rate counter, and return the token with child
context. -/
def token_pipeline_spec (env : VoiceEnv) : TokenResult × VoiceEnv :=
  match first_failing_check env with
  | some codemsg =>
    ({ success := false, error_code := some codemsg.1,
       error_message := some codemsg.2 }, env)
  | none =>
    match env.livekit, spec_child env with
    | .ok tr, some child =>
      ({ success := true, token := some tr.token,
         livekit_url := some tr.livekit_url, room_name := some tr.room_name,
         child_context :=
           some ⟨child.id, child.name, child.age, child.personality_traits.getD []⟩ },
       { env with
         device := { env.device with
           last_seen := some env.now, connection_status := "online" },
         redis := env.redis.map (fun counter => some (counter.getD 0 + 1)) })
    | _, _ => ({ success := false }, env)

/-! ## `_increment_rate_limit` and the daily counter key (Redis semantics) -/

/-- The device's daily counter key in Redis: its value and optional absolute
expiry in microseconds since the epoch; `none` (at the `RedisKeyState` level)
means the key does not exist. -/
structure CounterKey where
  count : Nat
  expires_at : Option Nat
deriving DecidableEq

/-- The state of one Redis key. -/
abbrev RedisKeyState := Option CounterKey

/-- A key as visible at `now` (µs since epoch): an expired key is gone. -/
def liveKey (st : RedisKeyState) (now : Nat) : RedisKeyState :=
  match st with
  | some k =>
    match k.expires_at with
    | some e => if e ≤ now then none else st
    | none => st
  | none => none

/-- Redis `INCR`: create at 1 when absent, else add one, keeping the expiry. -/
def redisIncr (st : RedisKeyState) (now : Nat) : RedisKeyState :=
  match liveKey st now with
  | none => some ⟨1, none⟩
  | some k => some ⟨k.count + 1, k.expires_at⟩

/-- Redis `TTL`: −2 when the key is absent, −1 when it has no expiry, else
the remaining whole seconds (the source only ever compares this against −1,
so the rounding of a live key's remaining time is immaterial). -/
def redisTtl (st : RedisKeyState) (now : Nat) : Int :=
  match liveKey st now with
  | none => -2
  | some k =>
    match k.expires_at with
    | none => -1
    | some e => (((e - now) / 1000000 : Nat) : Int)

/-- Redis `EXPIRE key secs`: set the expiry of a live key. -/
def redisExpire (st : RedisKeyState) (now : Nat) (secs : Nat) : RedisKeyState :=
  match liveKey st now with
  | none => none
  | some k => some ⟨k.count, some (now + secs * 1000000)⟩

/-- The source's seconds-until-next-UTC-midnight:
`now.replace(hour=0, minute=0, second=0, microsecond=0) + timedelta(days=1)`
minus `now`, truncated to whole seconds by `int(...total_seconds())`. With
`now` in µs since the epoch (POSIX time, so UTC days are exactly
86 400 000 000 µs), this is the remaining µs of the day, floor-divided into
seconds. -/
def seconds_until_midnight (now : Nat) : Nat :=
  (86400000000 - now % 86400000000) / 1000000

/-- Embeds `VoiceTokenService._increment_rate_limit` acting on the device's
daily key: `INCR`, then if `TTL == -1` (no expiry yet) `EXPIRE` to the
seconds remaining until the next UTC midnight. -/
def increment_rate_limit (st : RedisKeyState) (now : Nat) : RedisKeyState :=
  let st1 := redisIncr st now
  if redisTtl st1 now = -1 then
    redisExpire st1 now (seconds_until_midnight now)
  else st1

/-! ## `app/repositories/device_repository.py` -/

/-- Embeds `DeviceRepository.exists_by_serial`. -/
def exists_by_serial (devs : List DeviceRec) (sn : String) : Bool :=
  devs.any (fun d => d.serial_number == sn)

/-- Embeds `DeviceRepository.get_by_serial_number` (`scalar_one_or_none`; serial
numbers are unique, so the first match is the only one). -/
def get_by_serial_number (devs : List DeviceRec) (sn : String) : Option DeviceRec :=
  devs.find? (fun d => d.serial_number == sn)

/-- Embeds `DeviceRepository.get_by_child_id`: the active device paired with the
child (`scalar_one_or_none`; under the one-active-device invariant the first
match is the only one). -/
def get_by_child_id (devs : List DeviceRec) (cid : Nat) : Option DeviceRec :=
  devs.find? (fun d => d.is_active && d.child_id == some cid)

/-- The row update `DeviceRepository.unpair` performs on the device with the
given id. -/
def unpairRow (e : Nat) (d : DeviceRec) : DeviceRec :=
  if d.id = e then { d with child_id := none, paired_at := none } else d

/-- The row update `DeviceRepository.pair_with_child` performs. -/
def pairRow (i cid : Nat) (now : Int) (d : DeviceRec) : DeviceRec :=
  if d.id = i then { d with child_id := some cid, paired_at := some now } else d

/-- Embeds `DeviceRepository.unpair` on the device table. -/
def repo_unpair (devs : List DeviceRec) (e : Nat) : List DeviceRec :=
  devs.map (unpairRow e)

/-- Embeds `DeviceRepository.pair_with_child` on the device table. -/
def repo_pair_with_child (devs : List DeviceRec) (i cid : Nat) (now : Int) :
    List DeviceRec :=
  devs.map (pairRow i cid now)

/-! ## `app/services/device_service.py` -/

/-- The `RegisterResult` dataclass (the `device` object field is represented
by its id). -/
structure RegisterResult where
  success : Bool
  device_id : Option Nat := none
  device_secret : Option String := none
  error_code : Option String := none
  error_message : Option String := none
deriving DecidableEq

/-- The `PairResult` dataclass. -/
structure PairResult where
  success : Bool
  child_id : Option Nat := none
  child_name : Option String := none
  paired_at : Option Int := none
  error_code : Option String := none
  error_message : Option String := none
deriving DecidableEq

/-- Embeds `DeviceService._get_child`: active child by id. -/
def get_child (children : List ChildRec) (cid : Nat) : Option ChildRec :=
  children.find? (fun c => c.id == cid && c.is_active)

/-- Embeds `DeviceService._get_child_with_user`: active child by id and owner. -/
def get_child_with_user (children : List ChildRec) (cid uid : Nat) : Option ChildRec :=
  children.find? (fun c => c.id == cid && c.user_id == uid && c.is_active)

/-- The pairing-code store (`pairing_code:<code>` keys in Redis); values are
the stored strings (`str(child.id)` written at code creation). -/
abbrev PairingStore := String → Option String

/-- Embeds `DeviceService._verify_pairing_code`: read the code's key; on a
truthy hit (Python's `if child_id:` — `None` and the empty string are both
falsy) delete the key (single use) and return the stored child id, else
return nothing with the store untouched. -/
def verify_pairing_code (store : PairingStore) (code : String) :
    Option String × PairingStore :=
  match store code with
  | some child_id =>
    if child_id = "" then (none, store)
    else (some child_id, fun k => if k = code then none else store k)
  | none => (none, store)

/-- Embeds `DeviceService.register`. `fresh_id` is the id the database
assigns to the new row and `gen_secret` the generated
`secrets.token_urlsafe(32)` value (random, so a parameter here). -/
def register (devs : List DeviceRec) (serial_number device_type firmware : String)
    (fresh_id : Nat) (gen_secret : String) : RegisterResult × List DeviceRec :=
  if exists_by_serial devs serial_number then
    ({ success := false, error_code := some "SERIAL_NUMBER_EXISTS",
       error_message := some "Device with this serial number already registered" },
     devs)
  else
    ({ success := true, device_id := some fresh_id, device_secret := some gen_secret },
     devs ++ [⟨fresh_id, serial_number, gen_secret, device_type, firmware,
               true, "offline", none, none, none⟩])

/-- Embeds `DeviceService.pair`. `pu` stands for `UUID(child_id_str)`, the
parse of the stored child-id string (total here: the store is written from
real child ids by the code-creation path). Returns the `PairResult`, the
device table and the pairing store after the call. -/
def pair (devs : List DeviceRec) (children : List ChildRec)
    (redis : Option PairingStore) (pu : String → Nat)
    (device : DeviceRec) (pairing_code : String) (now : Int) :
    PairResult × List DeviceRec × Option PairingStore :=
  if device.child_id.isSome then
    ({ success := false, error_code := some "ALREADY_PAIRED",
       error_message := some "Device is already paired with a child" }, devs, redis)
  else
    match redis with
    | none =>
      ({ success := false, error_code := some "SERVICE_UNAVAILABLE",
         error_message := some "Pairing service temporarily unavailable" }, devs, none)
    | some store =>
      match verify_pairing_code store pairing_code with
      | (none, store1) =>
        ({ success := false, error_code := some "INVALID_PAIRING_CODE",
           error_message := some "Pairing code is invalid or expired" },
         devs, some store1)
      | (some cid_str, store1) =>
        let cid := pu cid_str
        match get_child children cid with
        | none =>
          ({ success := false, error_code := some "CHILD_NOT_FOUND",
             error_message := some "Child not found" }, devs, some store1)
        | some child =>
          let devs1 :=
            match get_by_child_id devs cid with
            | some existing =>
              if existing.id ≠ device.id then repo_unpair devs existing.id else devs
            | none => devs
          ({ success := true, child_id := some child.id,
             child_name := some child.name, paired_at := some now },
           repo_pair_with_child devs1 device.id cid now, some store1)

/-- Embeds `DeviceService.register_and_pair` (parent-app GraphQL path).
`fresh_id` is the id the database assigns when a new row is created. -/
def register_and_pair (devs : List DeviceRec) (children : List ChildRec)
    (user_id : Nat) (serial_number device_secret device_type firmware_version : String)
    (child_id : Nat) (fresh_id : Nat) (now : Int) :
    RegisterResult × List DeviceRec :=
  match get_child_with_user children child_id user_id with
  | none =>
    ({ success := false, error_code := some "CHILD_NOT_FOUND",
       error_message := some "Child not found or not owned by user" }, devs)
  | some _child =>
    match get_by_serial_number devs serial_number with
    | some existing =>
      if existing.device_secret = device_secret then
        let devs1 :=
          match existing.child_id with
          | some c => if c ≠ child_id then repo_unpair devs existing.id else devs
          | none => devs
        let devs2 :=
          match get_by_child_id devs1 child_id with
          | some cd => if cd.id ≠ existing.id then repo_unpair devs1 cd.id else devs1
          | none => devs1
        ({ success := true, device_id := some existing.id },
         repo_pair_with_child devs2 existing.id child_id now)
      else
        ({ success := false, error_code := some "SERIAL_NUMBER_EXISTS",
           error_message := some "Device with this serial number already registered" },
         devs)
    | none =>
      let devs1 :=
        match get_by_child_id devs child_id with
        | some cd => repo_unpair devs cd.id
        | none => devs
      let devs2 := devs1 ++
        [⟨fresh_id, serial_number, device_secret, device_type, firmware_version,
          true, "offline", none, some child_id, none⟩]
      ({ success := true, device_id := some fresh_id },
       repo_pair_with_child devs2 fresh_id child_id now)

/-- The §3 invariant: a child has at most one active paired device. -/
def atMostOneActivePerChild (devs : List DeviceRec) : Prop :=
  ∀ cid x y, x ∈ devs → y ∈ devs →
    x.is_active = true → y.is_active = true →
    x.child_id = some cid → y.child_id = some cid → x.id = y.id

/-! ## Concrete fixtures used to exercise the gateway -/

/-- An active child owned by user 7. -/
def child10 : ChildRec := ⟨1, 7, "Mina", 6, true, some ["curious"]⟩

/-- User 7's active free-plan subscription with no expiry. -/
def sub10 : SubscriptionRec := ⟨7, "free", "active", none⟩

/-- A registered device paired with child 1. -/
def device10 : DeviceRec :=
  ⟨3, "SN-1", "s3cret", "toy", "1.0.0", true, "offline", none, some 1, some 0⟩

/-- A provider response. -/
def tr0 : LiveKitTokenResponse := ⟨"jwt-abc", "wss://lk.example", "voice-3-1-ab12cd34"⟩

/-- A fully valid world except that the service has no Redis and the provider
call fails. -/
def env10 : VoiceEnv :=
  ⟨device10, fun i => if i = 1 then some child10 else none,
   fun u => if u = 7 then some sub10 else none, none, .error (), 0⟩

/-- The world `env10` with a succeeding provider. -/
def env11 : VoiceEnv := { env10 with livekit := .ok tr0 }

/-- The world `env10` with the device unpaired. -/
def env8 : VoiceEnv := { env10 with device := { device10 with child_id := none } }

/-- A second, unpaired device. -/
def deviceU : DeviceRec := ⟨4, "SN-2", "sec2", "toy", "1.0.0", true, "offline", none, none, none⟩

/-- A device table with one paired and one unpaired device. -/
def devsW2 : List DeviceRec := [device10, deviceU]

/-- A child table with the one active child. -/
def childrenW : List ChildRec := [child10]

/-- A pairing-code store mapping `654321` to child id `1`. -/
def storeP : PairingStore := fun k => if k = "654321" then some "1" else none

/-- The UUID parse used with `storeP` (every stored value is child 1). -/
def pu0 : String → Nat := fun _ => 1

/-- A pairing-code store mapping `123456` to `child-1`. -/
def store0 : PairingStore := fun k => if k = "123456" then some "child-1" else none

/-! ## Helper lemmas -/

theorem unpairRow_id (e : Nat) (d : DeviceRec) : (unpairRow e d).id = d.id := by
  unfold unpairRow; split <;> rfl

theorem pairRow_id (i cid : Nat) (now : Int) (d : DeviceRec) :
    (pairRow i cid now d).id = d.id := by
  unfold pairRow; split <;> rfl

theorem unpairRow_active (e : Nat) (d : DeviceRec) :
    (unpairRow e d).is_active = d.is_active := by
  unfold unpairRow; split <;> rfl

theorem pairRow_active (i cid : Nat) (now : Int) (d : DeviceRec) :
    (pairRow i cid now d).is_active = d.is_active := by
  unfold pairRow; split <;> rfl

theorem unpairRow_child (e : Nat) (d : DeviceRec) :
    (unpairRow e d).child_id = if d.id = e then none else d.child_id := by
  unfold unpairRow; split <;> rfl

theorem pairRow_child (i cid : Nat) (now : Int) (d : DeviceRec) :
    (pairRow i cid now d).child_id = if d.id = i then some cid else d.child_id := by
  unfold pairRow; split <;> rfl

/-- A successful `get_by_child_id` returns a member row that is active and
paired with the child. -/
theorem get_by_child_id_some (devs : List DeviceRec) (cid : Nat) (e : DeviceRec)
    (h : get_by_child_id devs cid = some e) :
    e ∈ devs ∧ e.is_active = true ∧ e.child_id = some cid := by
  refine ⟨List.mem_of_find?_eq_some h, ?_⟩
  have hp := List.find?_some h
  simp only [Bool.and_eq_true, beq_iff_eq] at hp
  exact hp

/-- A failed `get_by_child_id` means no active row is paired with the child. -/
theorem get_by_child_id_none (devs : List DeviceRec) (cid : Nat)
    (h : get_by_child_id devs cid = none) :
    ∀ x ∈ devs, ¬(x.is_active = true ∧ x.child_id = some cid) := by
  intro x hx hc
  have hp := List.find?_eq_none.mp h x hx
  simp only [Bool.and_eq_true, beq_iff_eq] at hp
  exact hp ⟨hc.1, hc.2⟩

/-- Unpairing a row cannot break the one-active-device invariant. -/
theorem atMostOne_unpair (devs : List DeviceRec) (e : Nat)
    (hinv : atMostOneActivePerChild devs) :
    atMostOneActivePerChild (repo_unpair devs e) := by
  intro c x y hx hy hxa hya hxc hyc
  obtain ⟨w, hw, rfl⟩ := List.mem_map.mp hx
  obtain ⟨v, hv, rfl⟩ := List.mem_map.mp hy
  rw [unpairRow_id, unpairRow_id]
  rw [unpairRow_active] at hxa
  rw [unpairRow_active] at hya
  rw [unpairRow_child] at hxc hyc
  by_cases hwi : w.id = e
  · rw [if_pos hwi] at hxc
    exact absurd hxc (by simp)
  · rw [if_neg hwi] at hxc
    by_cases hvi : v.id = e
    · rw [if_pos hvi] at hyc
      exact absurd hyc (by simp)
    · rw [if_neg hvi] at hyc
      exact hinv c w v hw hv hxa hya hxc hyc

/-- Pairing row `i` to `cid` preserves the invariant when every active row
already paired with `cid` is row `i` itself. -/
theorem atMostOne_pair (devs : List DeviceRec) (i cid : Nat) (now : Int)
    (hinv : atMostOneActivePerChild devs)
    (hclear : ∀ x ∈ devs, x.is_active = true → x.child_id = some cid → x.id = i) :
    atMostOneActivePerChild (repo_pair_with_child devs i cid now) := by
  intro c x y hx hy hxa hya hxc hyc
  obtain ⟨w, hw, rfl⟩ := List.mem_map.mp hx
  obtain ⟨v, hv, rfl⟩ := List.mem_map.mp hy
  rw [pairRow_id, pairRow_id]
  rw [pairRow_active] at hxa
  rw [pairRow_active] at hya
  rw [pairRow_child] at hxc hyc
  by_cases hwi : w.id = i <;> by_cases hvi : v.id = i
  · rw [hwi, hvi]
  · rw [if_pos hwi] at hxc
    rw [if_neg hvi] at hyc
    injection hxc with hcid
    rw [← hcid] at hyc
    exact absurd (hclear v hv hya hyc) hvi
  · rw [if_neg hwi] at hxc
    rw [if_pos hvi] at hyc
    injection hyc with hcid
    rw [← hcid] at hxc
    exact absurd (hclear w hw hxa hxc) hwi
  · rw [if_neg hwi] at hxc
    rw [if_neg hvi] at hyc
    exact hinv c w v hw hv hxa hya hxc hyc

/-- After the keep-aware eviction step (`get_by_child_id`, unpair unless it
is the kept device), every active row paired with `cid` is the kept one, and
the invariant survives. -/
theorem clear_after_evictKeep (devs : List DeviceRec) (cid keep : Nat)
    (hinv : atMostOneActivePerChild devs) :
    (∀ x ∈ (match get_by_child_id devs cid with
            | some e => if e.id ≠ keep then repo_unpair devs e.id else devs
            | none => devs),
      x.is_active = true → x.child_id = some cid → x.id = keep) ∧
    atMostOneActivePerChild (match get_by_child_id devs cid with
            | some e => if e.id ≠ keep then repo_unpair devs e.id else devs
            | none => devs) := by
  cases hge : get_by_child_id devs cid with
  | none =>
    exact ⟨fun x hx hxa hxc =>
      absurd ⟨hxa, hxc⟩ (get_by_child_id_none devs cid hge x hx), hinv⟩
  | some e =>
    obtain ⟨hemem, hea, hec⟩ := get_by_child_id_some devs cid e hge
    dsimp only
    by_cases hek : e.id = keep
    · rw [if_neg (not_not_intro hek)]
      refine ⟨fun x hx hxa hxc => ?_, hinv⟩
      rw [← hek]
      exact hinv cid x e hx hemem hxa hea hxc hec
    · rw [if_pos hek]
      refine ⟨fun x hx hxa hxc => ?_, atMostOne_unpair devs e.id hinv⟩
      obtain ⟨w, hw, rfl⟩ := List.mem_map.mp hx
      rw [unpairRow_active] at hxa
      rw [unpairRow_child] at hxc
      by_cases hwi : w.id = e.id
      · rw [if_pos hwi] at hxc
        exact absurd hxc (by simp)
      · rw [if_neg hwi] at hxc
        exact absurd (hinv cid w e hw hemem hxa hea hxc hec) hwi

/-- After the unconditional eviction step, no active row is paired with
`cid`, and the invariant survives. -/
theorem clear_after_evict_all (devs : List DeviceRec) (cid : Nat)
    (hinv : atMostOneActivePerChild devs) :
    (∀ x ∈ (match get_by_child_id devs cid with
            | some e => repo_unpair devs e.id
            | none => devs),
      x.is_active = true → ¬(x.child_id = some cid)) ∧
    atMostOneActivePerChild (match get_by_child_id devs cid with
            | some e => repo_unpair devs e.id
            | none => devs) := by
  cases hge : get_by_child_id devs cid with
  | none =>
    exact ⟨fun x hx hxa hxc =>
      (get_by_child_id_none devs cid hge x hx) ⟨hxa, hxc⟩, hinv⟩
  | some e =>
    obtain ⟨hemem, hea, hec⟩ := get_by_child_id_some devs cid e hge
    dsimp only
    refine ⟨fun x hx hxa hxc => ?_, atMostOne_unpair devs e.id hinv⟩
    obtain ⟨w, hw, rfl⟩ := List.mem_map.mp hx
    rw [unpairRow_active] at hxa
    rw [unpairRow_child] at hxc
    by_cases hwi : w.id = e.id
    · rw [if_pos hwi] at hxc
      exact absurd hxc (by simp)
    · rw [if_neg hwi] at hxc
      exact hwi (hinv cid w e hw hemem hxa hea hxc hec)

/-- Appending a row paired with `cid` to a table with no active `cid` row
preserves the invariant. -/
theorem atMostOne_append_paired (devs : List DeviceRec) (d : DeviceRec) (cid : Nat)
    (hinv : atMostOneActivePerChild devs)
    (hclear : ∀ x ∈ devs, x.is_active = true → ¬(x.child_id = some cid))
    (hd : d.child_id = some cid) :
    atMostOneActivePerChild (devs ++ [d]) := by
  intro c x y hx hy hxa hya hxc hyc
  rw [List.mem_append, List.mem_singleton] at hx hy
  rcases hx with hx | rfl <;> rcases hy with hy | rfl
  · exact hinv c x y hx hy hxa hya hxc hyc
  · rw [hd] at hyc
    injection hyc with hcid
    rw [← hcid] at hxc
    exact absurd hxc (hclear x hx hxa)
  · rw [hd] at hxc
    injection hxc with hcid
    rw [← hcid] at hyc
    exact absurd hyc (hclear y hy hya)
  · rfl

/-- The function `generate_token` either succeeds or leaves the world untouched: every
early return of the source happens before `update_last_seen` and
`_increment_rate_limit`. -/
theorem generate_token_success_or_unchanged (env : VoiceEnv) :
    (generate_token env).1.success = true ∨ (generate_token env).2 = env := by
  unfold generate_token
  repeat' split
  all_goals dsimp only
  repeat' split
  all_goals (first | (left; rfl) | (right; rfl))

/-- The digest always renders as twice as many hex characters as bytes. -/
theorem bytesToHex_length (l : List Nat) : (bytesToHex l).length = 2 * l.length := by
  induction l with
  | nil => rfl
  | cons x xs ih =>
      simp [bytesToHex] at ih ⊢
      omega

/-- A SHA-256 digest is always 32 bytes. -/
theorem sha256_length (msg : List Nat) : (sha256 msg).length = 32 := by
  simp [sha256, sha256StateBytes, wordBE4]

/-- An HMAC-SHA256 hex digest is always 64 characters. -/
theorem hmacSha256Hex_length (key msg : List Nat) :
    (hmacSha256Hex key msg).length = 64 := by
  simp [hmacSha256Hex, bytesToHex_length, hmacSha256, sha256_length]

/-- An HMAC-SHA256 hex digest is never the empty string. -/
theorem hmacSha256Hex_ne_nil (key msg : List Nat) : hmacSha256Hex key msg ≠ [] := by
  intro h
  have := hmacSha256Hex_length key msg
  rw [h] at this
  simp at this

/-! ## Claim theorems -/

/-- C1: `verify_device_signature` returns true iff the timestamp parses as an
integer `t` with `|now - t| ≤ 300` (boundary 300 allowed, symmetric in both
directions) and the supplied signature equals the lowercase hex HMAC-SHA256
digest, keyed by the secret, of `serial ++ timestamp ++ body` with no
delimiters; an unparseable timestamp returns false. -/
theorem C1_verify_device_signature_iff
    (serial signature timestamp body secret : List Nat) (now : Int) :
    verify_device_signature serial signature timestamp body secret now = true ↔
      ∃ t : Int, pyIntOfBytes timestamp = some t ∧ (now - t).natAbs ≤ 300 ∧
        signature = hmacSha256Hex secret (serial ++ timestamp ++ body) := by
  unfold verify_device_signature
  cases h : pyIntOfBytes timestamp with
  | none => simp [h]
  | some t =>
    simp only [h, Option.some.injEq]
    split_ifs with hw
    · simp only [false_iff, not_exists]
      rintro t' ⟨rfl, habs, _⟩
      omega
    · simp only [decide_eq_true_eq]
      constructor
      · intro hsig
        exact ⟨t, rfl, by omega, hsig⟩
      · rintro ⟨t', rfl, _, hsig⟩
        exact hsig

/-- C3 counterexample: at concrete inputs, an unknown serial (`[66]`) and an
invalid signature for a known device (`[65]`, secret `[75]`, empty signature,
fresh timestamp `"0"` at `now = 0`) both yield 401 but with different bodies,
so the response does depend on which failure occurred. -/
theorem C3_counterexample :
    verify_device dir0 [66] [] [48] 0 = ⟨401, "Invalid device serial number"⟩ ∧
    verify_device dir0 [65] [] [48] 0 = ⟨401, "Invalid device signature"⟩ ∧
    verify_device dir0 [66] [] [48] 0 ≠ verify_device dir0 [65] [] [48] 0 := by
  have hsig : verify_device_signature [65] [] [48] [] [75] 0 = false := by
    have hp : pyIntOfBytes [48] = some 0 := by decide
    unfold verify_device_signature
    rw [hp]
    simp
    exact hmacSha256Hex_ne_nil [75] [65, 48]
  have h1 : verify_device dir0 [66] [] [48] 0 = ⟨401, "Invalid device serial number"⟩ := rfl
  have h2 : verify_device dir0 [65] [] [48] 0 = ⟨401, "Invalid device signature"⟩ := by
    simp [verify_device, dir0, hsig]
  exact ⟨h1, h2, by rw [h1, h2]; decide⟩

/-- C3 (amended): an unknown serial and a failed signature check for a known
device are both reported with HTTP status 401 — only the status, not the full
response, is independent of the failure condition: the bodies differ
("Invalid device serial number" vs "Invalid device signature"). -/
theorem C3_amended_same_status (directory : List Nat → Option (List Nat))
    (serial1 serial2 sig1 sig2 ts1 ts2 : List Nat) (now1 now2 : Int)
    (hunknown : directory serial1 = none)
    (hbad : ∃ s, directory serial2 = some s ∧ s ≠ [] ∧
      verify_device_signature serial2 sig2 ts2 [] s now2 = false) :
    (verify_device directory serial1 sig1 ts1 now1).status = 401 ∧
    (verify_device directory serial2 sig2 ts2 now2).status = 401 ∧
    (verify_device directory serial1 sig1 ts1 now1).detail ≠
      (verify_device directory serial2 sig2 ts2 now2).detail := by
  obtain ⟨s, hs, hne, hv⟩ := hbad
  have h1 : verify_device directory serial1 sig1 ts1 now1 =
      ⟨401, "Invalid device serial number"⟩ := by
    simp [verify_device, hunknown]
  have h2 : verify_device directory serial2 sig2 ts2 now2 =
      ⟨401, "Invalid device signature"⟩ := by
    cases s with
    | nil => exact absurd rfl hne
    | cons a as => simp [verify_device, hs, hv]
  rw [h1, h2]
  exact ⟨rfl, rfl, by decide⟩

/-- C2: `generate_token` checks the pipeline's conditions in strict order and
returns the error of the first failing check with the world untouched
(DEVICE_NOT_PAIRED, CHILD_NOT_FOUND, SUBSCRIPTION_NOT_FOUND,
SUBSCRIPTION_INACTIVE, RATE_LIMIT_EXCEEDED, then the provider error); only on
success does it mark the device seen, increment the rate counter, and return
the token with child context — i.e. it coincides with the spec-side cascade
`token_pipeline_spec`. -/
theorem C2_generate_token_refines_pipeline (env : VoiceEnv) :
    generate_token env = token_pipeline_spec env := by
  unfold generate_token token_pipeline_spec first_failing_check spec_subscription spec_child
  cases hc : env.device.child_id with
  | none => simp [spec_child, spec_subscription, hc]
  | some cid =>
    cases hch : env.children cid with
    | none => simp [spec_child, spec_subscription, hc, hch]
    | some child =>
      cases hs : env.subscriptions child.user_id with
      | none =>
        by_cases ha : child.is_active <;> simp [spec_child, spec_subscription, hc, hch, hs, ha]
      | some sub =>
        by_cases ha : child.is_active
        · by_cases hact : is_subscription_active sub env.now
          · cases hr : env.redis with
            | none =>
              cases hlk : env.livekit with
              | error e => simp [spec_child, spec_subscription, hc, hch, hs, ha, hact, hr, hlk]
              | ok tr => simp [spec_child, spec_subscription, hc, hch, hs, ha, hact, hr, hlk]
            | some counter =>
              by_cases hcr : check_rate_limit counter sub
              · cases hlk : env.livekit with
                | error e => simp [spec_child, spec_subscription, hc, hch, hs, ha, hact, hr, hcr, hlk]
                | ok tr => simp [spec_child, spec_subscription, hc, hch, hs, ha, hact, hr, hcr, hlk]
              · simp [spec_child, spec_subscription, hc, hch, hs, ha, hact, hr, hcr]
          · simp [spec_child, spec_subscription, hc, hch, hs, ha, hact]
        · simp [spec_child, spec_subscription, hc, hch, hs, ha]

/-- C4: the daily limit is free = 50, basic = 200; the check passes exactly
when no counter exists yet or the count is strictly below the limit
(49 allowed, 50 denied at limit 50); the premium plan always passes, whatever
the counter holds. -/
theorem C4_daily_limit_and_check (uid : Nat) (status : String)
    (expires : Option Int) (c : Option Nat) (n : Nat) :
    get_daily_limit ⟨uid, "free", status, expires⟩ = 50 ∧
    get_daily_limit ⟨uid, "basic", status, expires⟩ = 200 ∧
    check_rate_limit none ⟨uid, "free", status, expires⟩ = true ∧
    (check_rate_limit (some n) ⟨uid, "free", status, expires⟩ = true ↔ n < 50) ∧
    check_rate_limit none ⟨uid, "basic", status, expires⟩ = true ∧
    (check_rate_limit (some n) ⟨uid, "basic", status, expires⟩ = true ↔ n < 200) ∧
    check_rate_limit (some 49) ⟨uid, "free", status, expires⟩ = true ∧
    check_rate_limit (some 50) ⟨uid, "free", status, expires⟩ = false ∧
    check_rate_limit c ⟨uid, "premium", status, expires⟩ = true := by
  refine ⟨rfl, rfl, rfl, ?_, rfl, ?_, rfl, rfl, ?_⟩
  · simp [check_rate_limit, get_daily_limit, RATE_LIMITS]
  · simp [check_rate_limit, get_daily_limit, RATE_LIMITS]
  · cases c <;> simp [check_rate_limit, get_daily_limit, RATE_LIMITS]

/-- C8: whenever `generate_token` returns a failure result (any error code,
provider failure included), the rate counter is not incremented and the
device's `last_seen` and `connection_status` are unchanged. -/
theorem C8_failure_charges_nothing (env : VoiceEnv)
    (hfail : (generate_token env).1.success = false) :
    (generate_token env).2.redis = env.redis ∧
    (generate_token env).2.device.last_seen = env.device.last_seen ∧
    (generate_token env).2.device.connection_status = env.device.connection_status := by
  rcases generate_token_success_or_unchanged env with h | h
  · rw [hfail] at h
    exact absurd h (by simp)
  · rw [h]
    exact ⟨rfl, rfl, rfl⟩

/-- Witness for C8: an unpaired device's request fails and charges nothing. -/
theorem C8_witness :
    (generate_token env8).1.success = false ∧
    ((generate_token env8).2.redis = env8.redis ∧
     (generate_token env8).2.device.last_seen = env8.device.last_seen ∧
     (generate_token env8).2.device.connection_status = env8.device.connection_status) :=
  ⟨rfl, C8_failure_charges_nothing env8 rfl⟩

/-- C9: the first increment of an absent daily key sets its expiry exactly
`seconds_until_midnight` (= whole seconds from `now` to the next UTC
midnight) ahead; a second increment while the key is still live bumps the
count without touching the expiry. -/
theorem C9_first_increment_sets_midnight_expiry (now1 now2 : Nat)
    (h12 : now1 ≤ now2)
    (hday : now2 < now1 + seconds_until_midnight now1 * 1000000) :
    increment_rate_limit none now1 =
      some ⟨1, some (now1 + seconds_until_midnight now1 * 1000000)⟩ ∧
    seconds_until_midnight now1 =
      ((now1 / 86400000000 + 1) * 86400000000 - now1) / 1000000 ∧
    increment_rate_limit (increment_rate_limit none now1) now2 =
      some ⟨2, some (now1 + seconds_until_midnight now1 * 1000000)⟩ := by
  have h1 : increment_rate_limit none now1 =
      some ⟨1, some (now1 + seconds_until_midnight now1 * 1000000)⟩ := by
    simp [increment_rate_limit, redisIncr, redisTtl, redisExpire, liveKey]
  refine ⟨h1, ?_, ?_⟩
  · unfold seconds_until_midnight
    omega
  · rw [h1]
    have hnle : ¬(now1 + seconds_until_midnight now1 * 1000000 ≤ now2) := by omega
    have hincr : redisIncr
        (some ⟨1, some (now1 + seconds_until_midnight now1 * 1000000)⟩) now2 =
        some ⟨2, some (now1 + seconds_until_midnight now1 * 1000000)⟩ := by
      simp [redisIncr, liveKey, hnle]
    have httl : ¬(redisTtl
        (some ⟨2, some (now1 + seconds_until_midnight now1 * 1000000)⟩) now2 = -1) := by
      simp [redisTtl, liveKey, hnle]
      omega
    unfold increment_rate_limit
    dsimp only
    rw [hincr, if_neg httl]

/-- Witness for C9 at `now1 = 0`, `now2 = 5`. -/
theorem C9_witness :
    increment_rate_limit none 0 =
      some ⟨1, some (0 + seconds_until_midnight 0 * 1000000)⟩ ∧
    seconds_until_midnight 0 = ((0 / 86400000000 + 1) * 86400000000 - 0) / 1000000 ∧
    increment_rate_limit (increment_rate_limit none 0) 5 =
      some ⟨2, some (0 + seconds_until_midnight 0 * 1000000)⟩ :=
  C9_first_increment_sets_midnight_expiry 0 5 (by omega) (by decide)

/-- C10 counterexample: in `env10` the service has no Redis, the pairing,
child, and subscription validations all pass, yet (the provider failing) the
request is not issued a token — so "every request that passes the pairing,
child, and subscription validations is allowed and issued a token" fails as
stated. -/
theorem C10_counterexample :
    env10.redis = none ∧
    spec_child env10 = some child10 ∧
    child10.is_active = true ∧
    spec_subscription env10 = some sub10 ∧
    is_subscription_active sub10 env10.now = true ∧
    (generate_token env10).1.success = false ∧
    (generate_token env10).1.token = none ∧
    (generate_token env10).1.error_code = some "LIVEKIT_ERROR" :=
  ⟨rfl, rfl, rfl, rfl, rfl, rfl, rfl, rfl⟩

/-- C10 (amended): with no Redis, `generate_token` never returns
RATE_LIMIT_EXCEEDED, and every request that passes the pairing, child, and
subscription validations proceeds to token issuance and — whenever the
provider succeeds — is issued a token, regardless of subscription plan or any
prior usage. -/
theorem C10_no_redis_skips_rate_limiting (env : VoiceEnv)
    (hredis : env.redis = none) :
    (generate_token env).1.error_code ≠ some "RATE_LIMIT_EXCEEDED" ∧
    ∀ child sub tr, spec_child env = some child → child.is_active = true →
      spec_subscription env = some sub → is_subscription_active sub env.now = true →
      env.livekit = Except.ok tr →
      (generate_token env).1.success = true ∧
      (generate_token env).1.token = some tr.token ∧
      (generate_token env).1.error_code = none := by
  constructor
  · unfold generate_token
    repeat' split
    all_goals dsimp only
    repeat' split
    all_goals simp_all
  · intro child sub tr hchild hact hsub hsact hlk
    unfold spec_child at hchild
    obtain ⟨cid, hc, hch⟩ := Option.bind_eq_some.mp hchild
    unfold spec_subscription spec_child at hsub
    rw [hc] at hsub
    simp only [Option.some_bind, hch] at hsub
    unfold generate_token
    simp [hc, hch, hact, hsub, hsact, hredis, hlk]

/-- Witness for C10 (amended) in the fully valid no-Redis world `env11`. -/
theorem C10_witness :
    (generate_token env11).1.error_code ≠ some "RATE_LIMIT_EXCEEDED" ∧
    (generate_token env11).1.success = true ∧
    (generate_token env11).1.token = some tr0.token ∧
    (generate_token env11).1.error_code = none := by
  obtain ⟨h1, h2⟩ := C10_no_redis_skips_rate_limiting env11 rfl
  obtain ⟨hs, ht, he⟩ := h2 child10 sub10 tr0 rfl rfl rfl rfl rfl
  exact ⟨h1, hs, ht, he⟩

/-- Witness for C3 (amended) at the concrete directory `dir0`. -/
theorem C3_amended_witness :
    (verify_device dir0 [66] [] [48] 0).status = 401 ∧
    (verify_device dir0 [65] [] [120] 0).status = 401 ∧
    (verify_device dir0 [66] [] [48] 0).detail ≠
      (verify_device dir0 [65] [] [120] 0).detail :=
  C3_amended_same_status dir0 [66] [65] [] [] [48] [120] 0 0 (by decide)
    ⟨[75], by decide, by decide, by decide⟩

/-- C6: redeeming a mapped one-time pairing code succeeds with the mapped
child id and deletes the entry from the store before returning; redeeming the
same code again on the resulting store yields nothing (the
INVALID_PAIRING_CODE path), so a code is consumed exactly once. -/
theorem C6_pairing_code_single_use (store : PairingStore) (code cid : String)
    (hmap : store code = some cid) (hne : cid ≠ "") :
    verify_pairing_code store code =
      (some cid, fun k => if k = code then none else store k) ∧
    (verify_pairing_code store code).2 code = none ∧
    (verify_pairing_code (verify_pairing_code store code).2 code).1 = none := by
  have h1 : verify_pairing_code store code =
      (some cid, fun k => if k = code then none else store k) := by
    simp [verify_pairing_code, hmap, hne]
  refine ⟨h1, ?_, ?_⟩
  · rw [h1]
    simp
  · rw [h1]
    simp [verify_pairing_code]

/-- Witness for C6 on the concrete store `store0`. -/
theorem C6_witness :
    verify_pairing_code store0 "123456" =
      (some "child-1", fun k => if k = "123456" then none else store0 k) ∧
    (verify_pairing_code store0 "123456").2 "123456" = none ∧
    (verify_pairing_code (verify_pairing_code store0 "123456").2 "123456").1 = none :=
  C6_pairing_code_single_use store0 "123456" "child-1" (by decide) (by decide)

/-- C7 counterexample: registering a duplicate serial fails, but the error
code the source produces is `SERIAL_NUMBER_EXISTS`, not the claimed
`SERIAL_EXISTS`. -/
theorem C7_counterexample :
    (register [device10] "SN-1" "toy" "2.0" 9 "gensec").1.success = false ∧
    (register [device10] "SN-1" "toy" "2.0" 9 "gensec").1.error_code =
      some "SERIAL_NUMBER_EXISTS" ∧
    (register [device10] "SN-1" "toy" "2.0" 9 "gensec").1.error_code ≠
      some "SERIAL_EXISTS" := by
  decide

/-- C7 (amended): registering an existing serial fails with
`SERIAL_NUMBER_EXISTS` (the device-facing `register` offers no way to prove
possession); on the parent-app path, a caller presenting the existing
device's secret gets a re-pair of that device (success, same row, no new row)
instead of a conflict, while a wrong secret gets `SERIAL_NUMBER_EXISTS` with
the table untouched. -/
theorem C7_amended_serial_conflict (devs : List DeviceRec)
    (children : List ChildRec)
    (serial device_type firmware gen_secret device_secret : String)
    (fid uid cid : Nat) (now : Int) (existing : DeviceRec)
    (hdup : exists_by_serial devs serial = true)
    (hchild : get_child_with_user children cid uid ≠ none)
    (hex : get_by_serial_number devs serial = some existing) :
    ((register devs serial device_type firmware fid gen_secret).1.success = false ∧
     (register devs serial device_type firmware fid gen_secret).1.error_code =
       some "SERIAL_NUMBER_EXISTS" ∧
     (register devs serial device_type firmware fid gen_secret).2 = devs) ∧
    (existing.device_secret = device_secret →
      (register_and_pair devs children uid serial device_secret device_type
        firmware cid fid now).1.success = true ∧
      (register_and_pair devs children uid serial device_secret device_type
        firmware cid fid now).1.device_id = some existing.id ∧
      (register_and_pair devs children uid serial device_secret device_type
        firmware cid fid now).2.length = devs.length) ∧
    (existing.device_secret ≠ device_secret →
      (register_and_pair devs children uid serial device_secret device_type
        firmware cid fid now).1.success = false ∧
      (register_and_pair devs children uid serial device_secret device_type
        firmware cid fid now).1.error_code = some "SERIAL_NUMBER_EXISTS" ∧
      (register_and_pair devs children uid serial device_secret device_type
        firmware cid fid now).2 = devs) := by
  refine ⟨?_, ?_, ?_⟩
  · simp [register, hdup]
  · intro hsec
    cases hgcu : get_child_with_user children cid uid with
    | none => exact absurd hgcu hchild
    | some ch =>
      unfold register_and_pair
      rw [hgcu]
      dsimp only
      rw [hex]
      dsimp only
      rw [if_pos hsec]
      refine ⟨rfl, rfl, ?_⟩
      dsimp only
      simp only [repo_pair_with_child, List.length_map]
      repeat' split
      all_goals simp [repo_unpair]
  · intro hsec
    cases hgcu : get_child_with_user children cid uid with
    | none => exact absurd hgcu hchild
    | some ch =>
      unfold register_and_pair
      rw [hgcu]
      dsimp only
      rw [hex]
      dsimp only
      rw [if_neg hsec]
      exact ⟨rfl, rfl, rfl⟩

/-- Witness for C7 (amended) on the concrete table `devsW2`: a plain
re-registration of `SN-1` conflicts; the parent-app path with the right
secret re-pairs device 3; with a wrong secret it conflicts. -/
theorem C7_witness :
    ((register devsW2 "SN-1" "toy" "1.0.0" 99 "gensec").1.success = false ∧
     (register devsW2 "SN-1" "toy" "1.0.0" 99 "gensec").1.error_code =
       some "SERIAL_NUMBER_EXISTS" ∧
     (register devsW2 "SN-1" "toy" "1.0.0" 99 "gensec").2 = devsW2) ∧
    ((register_and_pair devsW2 childrenW 7 "SN-1" "s3cret" "toy" "1.0.0"
        1 99 5).1.success = true ∧
     (register_and_pair devsW2 childrenW 7 "SN-1" "s3cret" "toy" "1.0.0"
        1 99 5).1.device_id = some device10.id ∧
     (register_and_pair devsW2 childrenW 7 "SN-1" "s3cret" "toy" "1.0.0"
        1 99 5).2.length = devsW2.length) ∧
    ((register_and_pair devsW2 childrenW 7 "SN-1" "wrong" "toy" "1.0.0"
        1 99 5).1.success = false ∧
     (register_and_pair devsW2 childrenW 7 "SN-1" "wrong" "toy" "1.0.0"
        1 99 5).1.error_code = some "SERIAL_NUMBER_EXISTS" ∧
     (register_and_pair devsW2 childrenW 7 "SN-1" "wrong" "toy" "1.0.0"
        1 99 5).2 = devsW2) :=
  ⟨(C7_amended_serial_conflict devsW2 childrenW "SN-1" "toy" "1.0.0" "gensec"
      "gensec" 99 7 1 5 device10 (by decide) (by decide) (by decide)).1,
   (C7_amended_serial_conflict devsW2 childrenW "SN-1" "toy" "1.0.0" "gensec"
      "s3cret" 99 7 1 5 device10 (by decide) (by decide) (by decide)).2.1 (by decide),
   (C7_amended_serial_conflict devsW2 childrenW "SN-1" "toy" "1.0.0" "gensec"
      "wrong" 99 7 1 5 device10 (by decide) (by decide) (by decide)).2.2 (by decide)⟩

/-- C5: pairing upholds the one-active-device-per-child invariant. `pair` on
an already-paired device is rejected with ALREADY_PAIRED before anything else
(state untouched, for every store/child table); pairing an unpaired device to
a child that already has a different active device first unpairs that device,
so the old device ends unpaired and the new one paired; `register_and_pair`
preserves the invariant too and performs the same eviction on its new-device
path. -/
theorem C5_pairing_preserves_invariant (devs : List DeviceRec)
    (children : List ChildRec) (redis : Option PairingStore)
    (store : PairingStore) (pu : String → Nat) (device : DeviceRec)
    (code : String) (now : Int) (uid cidR fid : Nat) (sn ds dt fw : String)
    (hinv : atMostOneActivePerChild devs)
    (hfresh : ∀ d ∈ devs, d.id ≠ fid) :
    atMostOneActivePerChild (pair devs children redis pu device code now).2.1 ∧
    (device.child_id.isSome = true →
      (pair devs children redis pu device code now).1.error_code =
        some "ALREADY_PAIRED" ∧
      (pair devs children redis pu device code now).1.success = false ∧
      (pair devs children redis pu device code now).2.1 = devs ∧
      (pair devs children redis pu device code now).2.2 = redis) ∧
    (∀ cs child existing,
      device.child_id = none → store code = some cs → cs ≠ "" →
      get_child children (pu cs) = some child →
      get_by_child_id devs (pu cs) = some existing → existing.id ≠ device.id →
      (pair devs children (some store) pu device code now).1.success = true ∧
      ∀ x ∈ (pair devs children (some store) pu device code now).2.1,
        (x.id = existing.id → x.child_id = none) ∧
        (x.id = device.id → x.child_id = some (pu cs) ∧ x.paired_at = some now)) ∧
    atMostOneActivePerChild
      (register_and_pair devs children uid sn ds dt fw cidR fid now).2 ∧
    (∀ ecd,
      get_child_with_user children cidR uid ≠ none →
      get_by_serial_number devs sn = none →
      get_by_child_id devs cidR = some ecd →
      ∀ x ∈ (register_and_pair devs children uid sn ds dt fw cidR fid now).2,
        (x.id = ecd.id → x.child_id = none) ∧
        (x.id = fid → x.child_id = some cidR)) := by
  refine ⟨?_, ?_, ?_, ?_, ?_⟩
  · -- pair upholds the invariant on every branch
    unfold pair
    by_cases hp : device.child_id.isSome = true
    · rw [if_pos hp]
      exact hinv
    · rw [if_neg hp]
      cases redis with
      | none => exact hinv
      | some st =>
        dsimp only
        cases hv : verify_pairing_code st code with
        | mk r s1 =>
          cases r with
          | none =>
            exact hinv
          | some cs =>
            dsimp only
            cases hgc : get_child children (pu cs) with
            | none => exact hinv
            | some child =>
              dsimp only
              exact atMostOne_pair _ device.id (pu cs) now
                (clear_after_evictKeep devs (pu cs) device.id hinv).2
                (clear_after_evictKeep devs (pu cs) device.id hinv).1
  · -- an already-paired device short-circuits
    intro hp
    unfold pair
    rw [if_pos hp]
    exact ⟨rfl, rfl, rfl, rfl⟩
  · -- eviction on pair
    intro cs child existing hp hmap hne hgc hge hexid
    have hps : ¬(device.child_id.isSome = true) := by simp [hp]
    have hvp : verify_pairing_code store code =
        (some cs, fun k => if k = code then none else store k) := by
      simp [verify_pairing_code, hmap, hne]
    unfold pair
    rw [if_neg hps]
    dsimp only
    rw [hvp]
    dsimp only
    rw [hgc]
    dsimp only
    rw [hge]
    dsimp only
    rw [if_pos hexid]
    refine ⟨rfl, ?_⟩
    intro x hx
    obtain ⟨w1, hw1, rfl⟩ := List.mem_map.mp hx
    obtain ⟨w, hw, rfl⟩ := List.mem_map.mp hw1
    constructor
    · intro hxid
      rw [pairRow_id, unpairRow_id] at hxid
      have hne2 : (unpairRow existing.id w).id ≠ device.id := by
        rw [unpairRow_id, hxid]
        exact hexid
      rw [pairRow_child, if_neg hne2, unpairRow_child, if_pos hxid]
    · intro hxid
      rw [pairRow_id, unpairRow_id] at hxid
      have heq2 : (unpairRow existing.id w).id = device.id := by
        rw [unpairRow_id]
        exact hxid
      unfold pairRow
      rw [if_pos heq2]
      exact ⟨rfl, rfl⟩
  · -- register_and_pair upholds the invariant on every branch
    unfold register_and_pair
    cases hgcu : get_child_with_user children cidR uid with
    | none => exact hinv
    | some ch =>
      dsimp only
      cases hgs : get_by_serial_number devs sn with
      | some existing =>
        dsimp only
        by_cases hsec : existing.device_secret = ds
        · rw [if_pos hsec]
          dsimp only
          have hinv1 : atMostOneActivePerChild (match existing.child_id with
              | some c => if c ≠ cidR then repo_unpair devs existing.id else devs
              | none => devs) := by
            cases existing.child_id with
            | none => exact hinv
            | some c =>
              dsimp only
              split
              · exact atMostOne_unpair devs existing.id hinv
              · exact hinv
          exact atMostOne_pair _ existing.id cidR now
            (clear_after_evictKeep _ cidR existing.id hinv1).2
            (clear_after_evictKeep _ cidR existing.id hinv1).1
        · rw [if_neg hsec]
          exact hinv
      | none =>
        dsimp only
        have h1 := clear_after_evict_all devs cidR hinv
        have hinv2 : atMostOneActivePerChild
            ((match get_by_child_id devs cidR with
              | some cd => repo_unpair devs cd.id
              | none => devs) ++
             [(⟨fid, sn, ds, dt, fw, true, "offline", none, some cidR, none⟩ :
               DeviceRec)]) :=
          atMostOne_append_paired _ _ cidR h1.2 h1.1 rfl
        have hclear2 : ∀ x ∈ ((match get_by_child_id devs cidR with
              | some cd => repo_unpair devs cd.id
              | none => devs) ++
             [(⟨fid, sn, ds, dt, fw, true, "offline", none, some cidR, none⟩ :
               DeviceRec)]),
            x.is_active = true → x.child_id = some cidR → x.id = fid := by
          intro x hx hxa hxc
          rw [List.mem_append, List.mem_singleton] at hx
          rcases hx with hx | rfl
          · exact absurd hxc (h1.1 x hx hxa)
          · rfl
        exact atMostOne_pair _ fid cidR now hinv2 hclear2
  · -- register_and_pair eviction on the new-device path
    intro ecd hchild hser hge x hx
    unfold register_and_pair at hx
    cases hgcu : get_child_with_user children cidR uid with
    | none => exact absurd hgcu hchild
    | some ch =>
      rw [hgcu] at hx
      dsimp only at hx
      rw [hser] at hx
      dsimp only at hx
      rw [hge] at hx
      dsimp only at hx
      have hecd := get_by_child_id_some devs cidR ecd hge
      have hecdf : ecd.id ≠ fid := hfresh ecd hecd.1
      obtain ⟨w2, hw2, rfl⟩ := List.mem_map.mp hx
      rw [List.mem_append, List.mem_singleton] at hw2
      constructor
      · intro hxid
        rcases hw2 with hw2 | rfl
        · obtain ⟨w, hw, rfl⟩ := List.mem_map.mp hw2
          rw [pairRow_id, unpairRow_id] at hxid
          have hnf : (unpairRow ecd.id w).id ≠ fid := by
            rw [unpairRow_id, hxid]
            exact hecdf
          rw [pairRow_child, if_neg hnf, unpairRow_child, if_pos hxid]
        · rw [pairRow_id] at hxid
          exact absurd hxid.symm hecdf
      · intro hxid
        rcases hw2 with hw2 | rfl
        · obtain ⟨w, hw, rfl⟩ := List.mem_map.mp hw2
          rw [pairRow_id, unpairRow_id] at hxid
          exact absurd hxid (hfresh w hw)
        · rw [pairRow_child, if_pos rfl]

/-- Witness for C5 on the concrete table `devsW2` (device 3 paired with
child 1, device 4 unpaired): pairing the paired device is rejected; pairing
the unpaired device to child 1 evicts device 3; the invariant holds after
`pair` and after `register_and_pair`, whose new-device path also evicts. -/
theorem C5_witness :
    (pair devsW2 childrenW (some storeP) pu0 device10 "654321" 5).1.error_code =
      some "ALREADY_PAIRED" ∧
    (pair devsW2 childrenW (some storeP) pu0 device10 "654321" 5).2.1 = devsW2 ∧
    (pair devsW2 childrenW (some storeP) pu0 deviceU "654321" 5).1.success = true ∧
    (∀ x ∈ (pair devsW2 childrenW (some storeP) pu0 deviceU "654321" 5).2.1,
      (x.id = device10.id → x.child_id = none) ∧
      (x.id = deviceU.id → x.child_id = some 1 ∧ x.paired_at = some 5)) ∧
    atMostOneActivePerChild
      (pair devsW2 childrenW (some storeP) pu0 deviceU "654321" 5).2.1 ∧
    atMostOneActivePerChild
      (register_and_pair devsW2 childrenW 7 "SN-3" "ns" "toy" "1.0" 1 99 5).2 ∧
    (∀ x ∈ (register_and_pair devsW2 childrenW 7 "SN-3" "ns" "toy" "1.0" 1 99 5).2,
      (x.id = device10.id → x.child_id = none) ∧
      (x.id = 99 → x.child_id = some 1)) := by
  have hinvW : atMostOneActivePerChild devsW2 := by
    intro cid x y hx hy hxa hya hxc hyc
    simp only [devsW2, List.mem_cons, List.not_mem_nil, or_false] at hx hy
    rcases hx with rfl | rfl <;> rcases hy with rfl | rfl <;>
      simp_all [device10, deviceU]
  have h1 := C5_pairing_preserves_invariant devsW2 childrenW (some storeP) storeP
    pu0 deviceU "654321" 5 7 1 99 "SN-3" "ns" "toy" "1.0" hinvW (by decide)
  have h2 := C5_pairing_preserves_invariant devsW2 childrenW (some storeP) storeP
    pu0 device10 "654321" 5 7 1 99 "SN-3" "ns" "toy" "1.0" hinvW (by decide)
  obtain ⟨ha1, _, hc1, hd1, he1⟩ := h1
  obtain ⟨_, hb2, _, _, _⟩ := h2
  have hb := hb2 (by decide)
  have hc := hc1 "1" child10 device10 (by decide) (by decide) (by decide)
    (by decide) (by decide) (by decide)
  have he := he1 device10 (by decide) (by decide) (by decide)
  exact ⟨hb.1, hb.2.2.1, hc.1, hc.2, ha1, hd1, he⟩

end Uneseule
